import Mathlib

/-!
Verification of the shortlinks service (src/main.py, src/utils.py,
src/models.py, src/database.py) against its natural-language specification.

The Python code is shallowly embedded: timestamps are integers (seconds),
`datetime.now()` / `time.time()` are an explicit `now : Int` parameter,
the SQLAlchemy store is a pair of lists, the random code generator is an
explicit oracle argument, and HTTPException outcomes become constructors of
error types.
-/

deriving instance DecidableEq for Except

namespace Shortlinks

/-! ## URL utilities (src/utils.py) -/

/-- Python `str.replace` specialised to a two-character pattern
`'\\' ++ x` replaced by the single character `x`: a left-to-right,
non-overlapping scan, exactly the semantics of `url.replace('\\x', 'x')`
in `normalize_url` (src/utils.py line 33). -/
def pyReplace2 (x : Char) : List Char → List Char
  | [] => []
  | [a] => [a]
  | a :: c :: rest =>
    if a = '\\' ∧ c = x then x :: pyReplace2 x rest
    else a :: pyReplace2 x (c :: rest)

/-- The cleaning step of `normalize_url`:
`url.replace('\\?', '?').replace('\\=', '=').replace('\\&', '&')`. -/
def cleanUrlChars (s : List Char) : List Char :=
  pyReplace2 '&' (pyReplace2 '=' (pyReplace2 '?' s))

/-- Python `url.startswith(('http://', 'https://'))`. -/
def startsWithHttp (s : List Char) : Bool :=
  "http://".data.isPrefixOf s || "https://".data.isPrefixOf s

/-- `validate_url` (src/utils.py lines 25-27). -/
def validate_url (s : String) : Bool :=
  startsWithHttp s.data

/-- `normalize_url` (src/utils.py lines 30-37). -/
def normalize_url (s : String) : String :=
  let cleaned := cleanUrlChars s.data
  if startsWithHttp cleaned then String.mk cleaned
  else String.mk ("https://".data ++ cleaned)

/-- Spec-modelled cleaning step, written from the spec's words: "a backslash
immediately followed by `?`, `=`, or `&` is reduced to the bare character",
as one left-to-right pass over the string.  Used only to compare with the
source-derived `cleanUrlChars`. -/
def specReduceEscapes : List Char → List Char
  | [] => []
  | [a] => [a]
  | a :: c :: rest =>
    if a = '\\' ∧ (c = '?' ∨ c = '=' ∨ c = '&') then c :: specReduceEscapes rest
    else a :: specReduceEscapes (c :: rest)

/-- Spec-modelled normalization, written from the spec's words: reduce the
escapes, then prepend `https://` exactly when the cleaned string does not
begin with `http://` or `https://`. -/
def specNormalize (s : String) : String :=
  let cleaned := specReduceEscapes s.data
  if startsWithHttp cleaned then String.mk cleaned
  else String.mk ("https://".data ++ cleaned)

theorem pyReplace2_nil (x : Char) : pyReplace2 x [] = [] := by
  simp [pyReplace2]

theorem pyReplace2_single (x a : Char) : pyReplace2 x [a] = [a] := by
  simp [pyReplace2]

theorem pyReplace2_cons_ne (x a : Char) (u : List Char) (h : a ≠ '\\') :
    pyReplace2 x (a :: u) = a :: pyReplace2 x u := by
  cases u with
  | nil => simp [pyReplace2]
  | cons c rest => simp [pyReplace2, h]

theorem pyReplace2_bs_cons_ne (x c : Char) (u : List Char) (h : c ≠ x) :
    pyReplace2 x ('\\' :: c :: u) = '\\' :: pyReplace2 x (c :: u) := by
  simp [pyReplace2, h]

theorem pyReplace2_bs_hit (x : Char) (u : List Char) :
    pyReplace2 x ('\\' :: x :: u) = x :: pyReplace2 x u := by
  simp [pyReplace2]

/-- The head of `pyReplace2 x ('\\' :: t)` is `'\\'` or `x`. -/
theorem pyReplace2_bs_head (x : Char) (t : List Char) :
    ∃ h u, pyReplace2 x ('\\' :: t) = h :: u ∧ (h = '\\' ∨ h = x) := by
  cases t with
  | nil => exact ⟨'\\', [], by simp [pyReplace2], Or.inl rfl⟩
  | cons c rest =>
    by_cases hc : c = x
    · subst hc
      exact ⟨c, pyReplace2 c rest, by simp [pyReplace2], Or.inr rfl⟩
    · exact ⟨'\\', pyReplace2 x (c :: rest), by simp [pyReplace2, hc], Or.inl rfl⟩

theorem specReduceEscapes_nil : specReduceEscapes [] = [] := by
  simp [specReduceEscapes]

theorem specReduceEscapes_single (a : Char) : specReduceEscapes [a] = [a] := by
  simp [specReduceEscapes]

theorem specReduceEscapes_hit (c : Char) (rest : List Char)
    (hc : c = '?' ∨ c = '=' ∨ c = '&') :
    specReduceEscapes ('\\' :: c :: rest) = c :: specReduceEscapes rest := by
  simp [specReduceEscapes, hc]

theorem specReduceEscapes_miss (c : Char) (rest : List Char)
    (hc : ¬(c = '?' ∨ c = '=' ∨ c = '&')) :
    specReduceEscapes ('\\' :: c :: rest) = '\\' :: specReduceEscapes (c :: rest) := by
  simp [specReduceEscapes, hc]

theorem specReduceEscapes_cons_ne (a : Char) (u : List Char) (ha : a ≠ '\\') :
    specReduceEscapes (a :: u) = a :: specReduceEscapes u := by
  cases u with
  | nil => simp [specReduceEscapes]
  | cons c rest => simp [specReduceEscapes, ha]

/-- The three sequential Python `replace` calls of `normalize_url` compute the
same thing as the single left-to-right reduction pass described by the spec. -/
theorem cleanUrlChars_eq_specReduceEscapes (l : List Char) :
    cleanUrlChars l = specReduceEscapes l := by
  suffices h : ∀ n (l : List Char), l.length ≤ n →
      cleanUrlChars l = specReduceEscapes l from h l.length l le_rfl
  intro n
  induction n with
  | zero =>
    intro l hl
    have hnil : l = [] := List.length_eq_zero.mp (Nat.le_zero.mp hl)
    subst hnil
    simp [cleanUrlChars, pyReplace2_nil, specReduceEscapes_nil]
  | succ n ih =>
    intro l hl
    cases l with
    | nil => simp [cleanUrlChars, pyReplace2_nil, specReduceEscapes_nil]
    | cons a u =>
      have hu : u.length ≤ n := by simpa using hl
      by_cases ha : a = '\\'
      · subst ha
        cases u with
        | nil =>
          simp [cleanUrlChars, pyReplace2_single, specReduceEscapes_single]
        | cons c t =>
          have ht : t.length ≤ n := Nat.le_of_succ_le hu
          have hct : (c :: t).length ≤ n := hu
          by_cases hq : c = '?'
          · subst hq
            have hc : cleanUrlChars ('\\' :: '?' :: t) = '?' :: cleanUrlChars t := by
              unfold cleanUrlChars
              rw [pyReplace2_bs_hit '?' t,
                pyReplace2_cons_ne '=' '?' _ (by decide),
                pyReplace2_cons_ne '&' '?' _ (by decide)]
            rw [hc, specReduceEscapes_hit '?' t (by decide), ih t ht]
          · by_cases he : c = '='
            · subst he
              have hc : cleanUrlChars ('\\' :: '=' :: t) = '=' :: cleanUrlChars t := by
                unfold cleanUrlChars
                rw [pyReplace2_bs_cons_ne '?' '=' t (by decide),
                  pyReplace2_cons_ne '?' '=' t (by decide),
                  pyReplace2_bs_hit '=' (pyReplace2 '?' t),
                  pyReplace2_cons_ne '&' '=' _ (by decide)]
              rw [hc, specReduceEscapes_hit '=' t (by decide), ih t ht]
            · by_cases hn : c = '&'
              · subst hn
                have hc : cleanUrlChars ('\\' :: '&' :: t) = '&' :: cleanUrlChars t := by
                  unfold cleanUrlChars
                  rw [pyReplace2_bs_cons_ne '?' '&' t (by decide),
                    pyReplace2_cons_ne '?' '&' t (by decide),
                    pyReplace2_bs_cons_ne '=' '&' (pyReplace2 '?' t) (by decide),
                    pyReplace2_cons_ne '=' '&' _ (by decide),
                    pyReplace2_bs_hit '&' (pyReplace2 '=' (pyReplace2 '?' t))]
                rw [hc, specReduceEscapes_hit '&' t (by decide), ih t ht]
              · by_cases hb : c = '\\'
                · subst hb
                  have e1 : pyReplace2 '?' ('\\' :: '\\' :: t) =
                      '\\' :: pyReplace2 '?' ('\\' :: t) :=
                    pyReplace2_bs_cons_ne '?' '\\' t (by decide)
                  obtain ⟨h1, u1, hX, hh1⟩ := pyReplace2_bs_head '?' t
                  have e2 : pyReplace2 '=' ('\\' :: pyReplace2 '?' ('\\' :: t)) =
                      '\\' :: pyReplace2 '=' (pyReplace2 '?' ('\\' :: t)) := by
                    rw [hX]
                    exact pyReplace2_bs_cons_ne '=' h1 u1
                      (by rcases hh1 with h | h <;> subst h <;> decide)
                  have hYhead : ∃ h2 u2,
                      pyReplace2 '=' (pyReplace2 '?' ('\\' :: t)) = h2 :: u2 ∧
                      h2 ≠ '&' := by
                    rw [hX]
                    rcases hh1 with h | h
                    · subst h
                      obtain ⟨h2, u2, hY, hh2⟩ := pyReplace2_bs_head '=' u1
                      exact ⟨h2, u2, hY,
                        by rcases hh2 with h' | h' <;> subst h' <;> decide⟩
                    · subst h
                      exact ⟨'?', pyReplace2 '=' u1,
                        pyReplace2_cons_ne '=' '?' u1 (by decide), by decide⟩
                  obtain ⟨h2, u2, hY, hh2⟩ := hYhead
                  have e3 : pyReplace2 '&'
                      ('\\' :: pyReplace2 '=' (pyReplace2 '?' ('\\' :: t))) =
                      '\\' :: pyReplace2 '&'
                        (pyReplace2 '=' (pyReplace2 '?' ('\\' :: t))) := by
                    rw [hY]
                    exact pyReplace2_bs_cons_ne '&' h2 u2 hh2
                  have hc : cleanUrlChars ('\\' :: '\\' :: t) =
                      '\\' :: cleanUrlChars ('\\' :: t) := by
                    unfold cleanUrlChars
                    rw [e1, e2, e3]
                  rw [hc, specReduceEscapes_miss '\\' t (by decide),
                    ih ('\\' :: t) hct]
                · have hc : cleanUrlChars ('\\' :: c :: t) =
                      '\\' :: cleanUrlChars (c :: t) := by
                    unfold cleanUrlChars
                    rw [pyReplace2_bs_cons_ne '?' c t hq,
                      pyReplace2_cons_ne '?' c t hb,
                      pyReplace2_bs_cons_ne '=' c (pyReplace2 '?' t) he,
                      pyReplace2_cons_ne '=' c (pyReplace2 '?' t) hb,
                      pyReplace2_bs_cons_ne '&' c
                        (pyReplace2 '=' (pyReplace2 '?' t)) hn]
                  rw [hc, specReduceEscapes_miss c t (by simp [hq, he, hn]),
                    ih (c :: t) hct]
      · have hc : cleanUrlChars (a :: u) = a :: cleanUrlChars u := by
          unfold cleanUrlChars
          rw [pyReplace2_cons_ne '?' a u ha,
            pyReplace2_cons_ne '=' a _ ha,
            pyReplace2_cons_ne '&' a _ ha]
        rw [hc, specReduceEscapes_cons_ne a u ha, ih u hu]

/-! ## Data model (src/database.py, src/models.py)

Timestamps (`datetime` / `time.time()`) are integers in seconds. -/

/-- `ShortLink` row (src/database.py lines 49-66).  `url_hash` is never read
by the endpoints under verification and is omitted. -/
structure ShortLink where
  short_code : String
  original_url : String
  created_at : Int
  click_count : Nat
  last_accessed : Option Int
  expires_at : Option Int
  created_by_key_id : Option Nat
deriving DecidableEq, Repr

/-- `APIKey` row (src/database.py lines 69-83). -/
structure APIKey where
  id : Nat
  key : String
  name : String
  created_at : Int
  expires_at : Option Int
  last_used_at : Option Int
  usage_count : Nat
  is_active : Bool
deriving DecidableEq, Repr

/-- The store: the two tables. -/
structure DB where
  links : List ShortLink
  keys : List APIKey
deriving DecidableEq, Repr

/-- `db.query(ShortLink).filter(ShortLink.short_code == code).first()`. -/
def findLink (db : DB) (code : String) : Option ShortLink :=
  db.links.find? (fun l => l.short_code == code)

/-- `db.query(APIKey).filter(APIKey.key == k, APIKey.is_active == True).first()`
(src/main.py lines 188-191). -/
def findActiveKey (db : DB) (k : String) : Option APIKey :=
  db.keys.find? (fun a => a.key == k && a.is_active)

/-- `db.query(APIKey).filter(APIKey.is_active == True).count() > 0`
(src/main.py line 218). -/
def hasActiveKeys (db : DB) : Bool :=
  db.keys.any (fun a => a.is_active)

/-- Mutate the first element satisfying `p` — the row returned by
`.first()` is the one the handler mutates before `db.commit()`. -/
def modifyFirst (p : α → Bool) (f : α → α) : List α → List α
  | [] => []
  | x :: xs => if p x then f x :: xs else x :: modifyFirst p f xs

/-- `request.custom_code` / response models (src/models.py lines 6-11). -/
structure ShortLinkCreate where
  url : String
  custom_code : Option String
  expires_in_hours : Option Int
  expires_in_minutes : Option Int
deriving DecidableEq, Repr

/-- src/models.py lines 14-18. -/
structure BatchShortLinkCreate where
  urls : List String
  expires_in_hours : Option Int
  expires_in_minutes : Option Int
deriving DecidableEq, Repr

/-- src/models.py lines 21-29. -/
structure ShortLinkResponse where
  short_code : String
  short_url : String
  original_url : String
  created_at : Int
  click_count : Nat
  last_accessed : Option Int
  expires_at : Option Int
deriving DecidableEq, Repr

/-- src/models.py lines 35-41. -/
structure ShortLinkStats where
  short_code : String
  original_url : String
  click_count : Nat
  created_at : Int
  last_accessed : Option Int
deriving DecidableEq, Repr

/-- `BASE_URL = os.getenv("BASE_URL", "http://localhost:8000")`
(src/main.py line 80), taken at its default. -/
def BASE_URL : String := "http://localhost:8000"

/-- The `ShortLinkResponse(...)` construction repeated in the handlers
(e.g. src/main.py lines 350-358). -/
def responseOf (l : ShortLink) : ShortLinkResponse :=
  { short_code := l.short_code
    short_url := BASE_URL ++ "/" ++ l.short_code
    original_url := l.original_url
    created_at := l.created_at
    click_count := l.click_count
    last_accessed := l.last_accessed
    expires_at := l.expires_at }

/-- The `ShortLinkStats(...)` construction (src/main.py lines 504-510). -/
def statsOf (l : ShortLink) : ShortLinkStats :=
  { short_code := l.short_code
    original_url := l.original_url
    click_count := l.click_count
    created_at := l.created_at
    last_accessed := l.last_accessed }

/-! ## Abuse throttle (src/main.py lines 85-157) -/

/-- `MAX_FAILURES = 5` (src/main.py line 87). -/
def MAX_FAILURES : Nat := 5

/-- `FAILURE_WINDOW = 300` (src/main.py line 88). -/
def FAILURE_WINDOW : Int := 300

/-- `BAN_DURATION = 900` (src/main.py line 89). -/
def BAN_DURATION : Int := 900

/-- One value of the `ip_failures` defaultdict
(src/main.py line 93): attempt timestamps plus optional ban end. -/
structure ThrottleEntry where
  attempts : List Int
  ban_until : Option Int
deriving DecidableEq, Repr

/-- `ip_failures` as a total map; a missing address and the defaultdict's
default entry behave identically in every reader (`is_ip_banned` and
`get_remaining_ban_time` return False / 0 for both). -/
def ThrottleState : Type := String → ThrottleEntry

/-- The defaultdict's initial state. -/
def emptyThrottle : ThrottleState := fun _ => ⟨[], none⟩

/-- Point update of the throttle map. -/
def setEntry (st : ThrottleState) (ip : String) (e : ThrottleEntry) :
    ThrottleState :=
  fun j => if j = ip then e else st j

/-- `is_ip_banned` (src/main.py lines 110-124).  Returns the boolean and the
possibly-mutated map: an expired ban is cleared together with the attempt
history. -/
def is_ip_banned (st : ThrottleState) (ip : String) (now : Int) :
    Bool × ThrottleState :=
  match (st ip).ban_until with
  | some b =>
    if now < b then (true, st)
    else (false, setEntry st ip ⟨[], none⟩)
  | none => (false, st)

/-- `record_auth_failure` (src/main.py lines 126-145): drop attempts outside
the window, append now, and set the ban when the count reaches the
threshold. -/
def record_auth_failure (st : ThrottleState) (ip : String) (now : Int) :
    ThrottleState :=
  let kept := (st ip).attempts.filter (fun t => now - t < FAILURE_WINDOW)
  let atts := kept ++ [now]
  if atts.length ≥ MAX_FAILURES then
    setEntry st ip ⟨atts, some (now + BAN_DURATION)⟩
  else
    setEntry st ip ⟨atts, (st ip).ban_until⟩

/-- `get_remaining_ban_time` (src/main.py lines 147-157). -/
def get_remaining_ban_time (st : ThrottleState) (ip : String) (now : Int) :
    Int :=
  match (st ip).ban_until with
  | none => 0
  | some b => max 0 (b - now)

/-! ## Authentication (src/main.py lines 160-228) -/

/-- Outcome of `verify_api_key`: `allowed none` is the anonymous mode,
`allowed (some id)` the identified mode; the other constructors are the
HTTPExceptions 429 / 403 expired / 403 invalid / 401. -/
inductive AuthResult where
  | allowed (key_id : Option Nat)
  | rateLimited (remaining : Int)
  | keyExpired
  | invalidKey
  | missingKey
deriving DecidableEq, Repr

/-- The usage-statistics update of the matched key before `db.commit()`
(src/main.py lines 203-206). -/
def touchKey (db : DB) (k : String) (now : Int) : DB :=
  { db with
    keys := modifyFirst (fun a => a.key == k && a.is_active)
      (fun a =>
        { a with last_used_at := some now, usage_count := a.usage_count + 1 })
      db.keys }

/-- `verify_api_key` (src/main.py lines 160-228).  `provided` is
`x_api_key or api_key` (header takes precedence); Python truthiness makes an
empty string equivalent to no key. -/
def verify_api_key (db : DB) (st : ThrottleState) (ip : String)
    (provided : Option String) (now : Int) :
    AuthResult × DB × ThrottleState :=
  let (banned, st1) := is_ip_banned st ip now
  if banned then
    (.rateLimited (get_remaining_ban_time st1 ip now), db, st1)
  else
    let noKey : AuthResult × DB × ThrottleState :=
      if hasActiveKeys db then (.missingKey, db, st1)
      else (.allowed none, db, st1)
    match provided with
    | none => noKey
    | some k =>
      if k = "" then noKey
      else
        match findActiveKey db k with
        | some dk =>
          match dk.expires_at with
          | some e =>
            if now > e then (.keyExpired, db, record_auth_failure st1 ip now)
            else (.allowed (some dk.id), touchKey db k now, st1)
          | none => (.allowed (some dk.id), touchKey db k now, st1)
        | none => (.invalidKey, db, record_auth_failure st1 ip now)

/-! ## Link endpoints (src/main.py lines 286-575) -/

/-- The HTTPExceptions of the record-scoped handlers:
404 not found, 403 forbidden, 410 expired. -/
inductive ApiError where
  | notFound
  | forbidden
  | expired
deriving DecidableEq, Repr

/-- The four failure modes of `create_short_link`
(HTTP 400 invalid URL, 400 bad length, 400 non-alphanumeric, 409). -/
inductive CreateError where
  | invalidUrl
  | codeLengthOutOfRange
  | codeNotAlnum
  | conflict
deriving DecidableEq, Repr

/-- Python's per-character alphanumeric test: `c.isalpha() or c.isdecimal()
or c.isdigit() or c.isnumeric()` (the character condition of `str.isalnum`).
Python's test is Unicode-aware; it is encoded here exactly for the Latin-1
block (U+0000-U+00FF): digits, ASCII letters, the Latin-1 letters U+00C0-
U+00FF minus the two operators × (U+00D7) and ÷ (U+00F7), the letters
ª µ º, and the numeric characters ² ³ ¹ ¼ ½ ¾.  Above Latin-1 the Unicode
tables are not reproduced (the function returns false there), so the
theorems about custom codes quantify over Latin-1 codes. -/
def pyAlnumChar (c : Char) : Bool :=
  let n := c.toNat
  decide ((48 ≤ n ∧ n ≤ 57) ∨ (65 ≤ n ∧ n ≤ 90) ∨ (97 ≤ n ∧ n ≤ 122)
    ∨ n = 0xAA ∨ n = 0xB2 ∨ n = 0xB3 ∨ n = 0xB5 ∨ n = 0xB9 ∨ n = 0xBA
    ∨ n = 0xBC ∨ n = 0xBD ∨ n = 0xBE
    ∨ (0xC0 ≤ n ∧ n ≤ 0xFF ∧ n ≠ 0xD7 ∧ n ≠ 0xF7))

/-- Python `str.isalnum()`: non-empty and every character alphanumeric in
Python's Unicode sense (see `pyAlnumChar`). -/
def pyIsAlnum (s : String) : Bool :=
  !s.isEmpty && s.data.all pyAlnumChar

/-- The spec-side alphabet, written from the spec's words: "the alphanumeric
alphabet (62 symbols: upper, lower, digits)".  Used only to compare the
spec's notion of an alphanumeric code with the program's `isalnum` check. -/
def specAlnumChar (c : Char) : Bool :=
  c.isAlphanum

/-- The expiry computation of `create_short_link` (src/main.py lines
332-336) and `create_batch_short_links` (lines 389-393):
`if request.expires_in_hours and request.expires_in_hours > 0:
expires_at = datetime.now() + timedelta(hours=...)`.  Python truthiness of
`0` and the `> 0` test collapse to a single positivity check.
`expires_in_minutes` is never consulted by the handlers. -/
def hoursExpiry (h : Option Int) (now : Int) : Option Int :=
  match h with
  | some v => if 0 < v then some (now + v * 3600) else none
  | none => none

/-- `create_short_link` (src/main.py lines 286-358).  `fresh` stands for the
code returned by `get_unique_short_code()` when no custom code is used.
Python truthiness of `request.custom_code` sends an empty string to the
generator branch. -/
def create_short_link (db : DB) (key_id : Option Nat) (req : ShortLinkCreate)
    (now : Int) (fresh : String) :
    Except CreateError (ShortLinkResponse × DB) :=
  let original_url := normalize_url req.url
  if validate_url original_url = false then .error .invalidUrl
  else
    let codeRes : Except CreateError String :=
      match req.custom_code with
      | some c =>
        if c = "" then .ok fresh
        else if ¬(6 ≤ c.length ∧ c.length ≤ 10) then .error .codeLengthOutOfRange
        else if pyIsAlnum c = false then .error .codeNotAlnum
        else if (findLink db c).isSome then .error .conflict
        else .ok c
      | none => .ok fresh
    match codeRes with
    | .error e => .error e
    | .ok code =>
      let link : ShortLink :=
        { short_code := code
          original_url := original_url
          created_at := now
          click_count := 0
          last_accessed := none
          expires_at := hoursExpiry req.expires_in_hours now
          created_by_key_id := key_id }
      .ok (responseOf link, { db with links := db.links ++ [link] })

/-- Python `url.strip()` (src/main.py line 379): drop leading and trailing
whitespace. -/
def pyStrip (s : String) : String :=
  String.mk
    (((s.data.dropWhile (fun c => c.isWhitespace)).reverse.dropWhile
      (fun c => c.isWhitespace)).reverse)

/-- The loop body of `create_batch_short_links` (src/main.py lines 376-419):
per-item normalize, validate, create, collect result or error message.
`supply i` is the code `get_unique_short_code()` returns for item `i`; the
`except` branch of the Python loop is unreachable in the model (no store or
generator exceptions). -/
def batchLoop (key_id : Option Nat) (h : Option Int) (now : Int)
    (supply : Nat → String) :
    List String → Nat → DB → List ShortLinkResponse × List String × DB
  | [], _, db => ([], [], db)
  | url :: rest, idx, db =>
    let original_url := normalize_url (pyStrip url)
    if validate_url original_url then
      let link : ShortLink :=
        { short_code := supply idx
          original_url := original_url
          created_at := now
          click_count := 0
          last_accessed := none
          expires_at := hoursExpiry h now
          created_by_key_id := key_id }
      let out := batchLoop key_id h now supply rest (idx + 1)
        { db with links := db.links ++ [link] }
      (responseOf link :: out.1, out.2.1, out.2.2)
    else
      let out := batchLoop key_id h now supply rest (idx + 1) db
      (out.1, ("第 " ++ toString (idx + 1) ++ " 个URL无效: " ++ url) :: out.2.1,
        out.2.2)

/-- `create_batch_short_links` (src/main.py lines 361-424): run the loop,
then `if errors and not results: raise HTTPException(400, "; ".join(errors))`. -/
def create_batch_short_links (db : DB) (key_id : Option Nat)
    (req : BatchShortLinkCreate) (now : Int) (supply : Nat → String) :
    Except String (List ShortLinkResponse) × DB :=
  let out := batchLoop key_id req.expires_in_hours now supply req.urls 0 db
  if out.2.1 ≠ [] ∧ out.1 = [] then
    (.error (String.intercalate "; " out.2.1), out.2.2)
  else (.ok out.1, out.2.2)

/-- The expiry test of `redirect_to_url`
(src/main.py line 440): `short_link.expires_at and datetime.now() >
short_link.expires_at`. -/
def linkExpired (l : ShortLink) (now : Int) : Bool :=
  match l.expires_at with
  | some e => decide (now > e)
  | none => false

/-- The click-accounting mutation of the found row before `db.commit()`
(src/main.py lines 444-446). -/
def bumpClick (db : DB) (code : String) (now : Int) : DB :=
  { db with
    links := modifyFirst (fun x => x.short_code == code)
      (fun x =>
        { x with click_count := x.click_count + 1, last_accessed := some now })
      db.links }

/-- `redirect_to_url` (src/main.py lines 427-448).  On success the target
URL is returned and the found row gets `click_count += 1`,
`last_accessed = now`. -/
def redirect_to_url (db : DB) (code : String) (now : Int) :
    Except ApiError String × DB :=
  match findLink db code with
  | none => (.error .notFound, db)
  | some l =>
    if linkExpired l now then (.error .expired, db)
    else (.ok l.original_url, bumpClick db code now)

/-- `get_short_link_info` (src/main.py lines 451-480). -/
def get_short_link_info (db : DB) (key_id : Option Nat) (code : String) :
    Except ApiError ShortLinkResponse :=
  match findLink db code with
  | none => .error .notFound
  | some l =>
    if key_id ≠ none ∧ l.created_by_key_id ≠ key_id then .error .forbidden
    else .ok (responseOf l)

/-- `get_short_link_stats` (src/main.py lines 483-510). -/
def get_short_link_stats (db : DB) (key_id : Option Nat) (code : String) :
    Except ApiError ShortLinkStats :=
  match findLink db code with
  | none => .error .notFound
  | some l =>
    if key_id ≠ none ∧ l.created_by_key_id ≠ key_id then .error .forbidden
    else .ok (statsOf l)

/-- `delete_short_link` (src/main.py lines 551-575).  The success message
string is irrelevant to the claims and modelled as `Unit`; on an
HTTPException the store is untouched, which the pair return type makes
explicit. -/
def delete_short_link (db : DB) (key_id : Option Nat) (code : String) :
    Except ApiError Unit × DB :=
  match findLink db code with
  | none => (.error .notFound, db)
  | some l =>
    if key_id ≠ none ∧ l.created_by_key_id ≠ key_id then (.error .forbidden, db)
    else
      (.ok (),
        { db with links := db.links.eraseP (fun x => x.short_code == code) })

/-! ## List helper lemmas -/

theorem isPrefixOf_iff (l₁ l₂ : List Char) :
    l₁.isPrefixOf l₂ = true ↔ ∃ t, l₂ = l₁ ++ t := by
  induction l₁ generalizing l₂ with
  | nil => simp [List.isPrefixOf]
  | cons a as ih =>
    cases l₂ with
    | nil => simp [List.isPrefixOf]
    | cons b bs =>
      simp only [List.isPrefixOf, Bool.and_eq_true, beq_iff_eq, ih bs,
        List.cons.injEq, List.cons_append]
      constructor
      · rintro ⟨rfl, t, rfl⟩
        exact ⟨t, rfl, rfl⟩
      · rintro ⟨t, rfl, rfl⟩
        exact ⟨rfl, t, rfl⟩

theorem find?_append_singleton {α : Type _} (p : α → Bool) (l : List α) (x : α)
    (hl : l.find? p = none) (hx : p x = true) :
    (l ++ [x]).find? p = some x := by
  induction l with
  | nil => simp [List.find?, hx]
  | cons a as ih =>
    rw [List.find?_eq_none] at hl
    have ha : p a = false := by
      have := hl a (List.mem_cons_self a as)
      simpa using this
    have has : as.find? p = none := by
      rw [List.find?_eq_none]
      intro y hy
      exact hl y (List.mem_cons_of_mem a hy)
    simpa [List.find?, ha] using ih has

theorem find?_modifyFirst {α : Type _} (p : α → Bool) (f : α → α)
    (l : List α) (x : α) (h : l.find? p = some x) (hf : p (f x) = true) :
    (modifyFirst p f l).find? p = some (f x) := by
  induction l with
  | nil => simp [List.find?] at h
  | cons a as ih =>
    by_cases hp : p a = true
    · have hx : x = a := by
        rw [List.find?_cons_of_pos _ hp] at h
        exact (Option.some.injEq _ _ ▸ h).symm ▸ rfl
      subst hx
      simp [modifyFirst, hp, List.find?_cons_of_pos _ hf]
    · have hp' : p a = false := by simpa using hp
      rw [List.find?_cons_of_neg _ (by simp [hp'])] at h
      simp [modifyFirst, hp', List.find?_cons_of_neg, ih h]

theorem find?_eraseP_of_nodup {α β : Type _} [DecidableEq β] (g : α → β)
    (xs : List α) (c : β) (hnd : (xs.map g).Nodup) :
    (xs.eraseP (fun x => g x == c)).find? (fun x => g x == c) = none := by
  induction xs with
  | nil => simp [List.find?]
  | cons a as ih =>
    rw [List.map_cons, List.nodup_cons] at hnd
    by_cases hp : g a = c
    · rw [List.eraseP_cons_of_pos (by simp [hp])]
      rw [List.find?_eq_none]
      intro y hy hyc
      exact hnd.1 (by
        rw [List.mem_map]
        exact ⟨y, hy, by rw [beq_iff_eq] at hyc; rw [hyc, hp]⟩)
    · rw [List.eraseP_cons_of_neg (by simp [hp])]
      rw [List.find?_cons_of_neg _ (by simp [hp])]
      exact ih hnd.2

theorem findActiveKey_eq_none_of_noActive (db : DB) (k : String)
    (h : hasActiveKeys db = false) : findActiveKey db k = none := by
  unfold hasActiveKeys at h
  unfold findActiveKey
  rw [List.find?_eq_none]
  intro a ha
  rw [List.any_eq_false] at h
  simp [h a ha]

/-- `normalize_url` always yields a string with a scheme, so the
`validate_url` check the handlers run right after normalizing never fails:
the 400 invalid-URL branches are unreachable. -/
theorem validate_url_normalize_url (s : String) :
    validate_url (normalize_url s) = true := by
  unfold normalize_url validate_url
  by_cases hs : startsWithHttp (cleanUrlChars s.data) = true
  · simp [hs]
  · simp only [hs, Bool.false_eq_true, if_false]
    show startsWithHttp ("https://".data ++ cleanUrlChars s.data) = true
    unfold startsWithHttp
    rw [Bool.or_eq_true]
    right
    rw [isPrefixOf_iff]
    exact ⟨cleanUrlChars s.data, rfl⟩

/-! ## The claims -/

/-- C8: `normalize_url` first reduces each backslash immediately followed by
`?`, `=`, or `&` to the bare character, then prepends `https://` exactly when
the cleaned string does not begin with `http://` or `https://` (an existing
scheme is preserved) — i.e. it coincides with the spec-side `specNormalize`;
and `validate_url` returns true iff the string begins with `http://` or
`https://`. -/
theorem c8_normalize_and_validate (s : String) :
    normalize_url s = specNormalize s ∧
    (validate_url s = true ↔
      (∃ t, s.data = "http://".data ++ t) ∨
      (∃ t, s.data = "https://".data ++ t)) := by
  constructor
  · unfold normalize_url specNormalize
    rw [cleanUrlChars_eq_specReduceEscapes]
  · unfold validate_url startsWithHttp
    rw [Bool.or_eq_true, isPrefixOf_iff, isPrefixOf_iff]

/-- C5: `redirect_to_url` returns NotFound when no link with the code
exists; when the link exists and its `expires_at` is set and has passed it
returns Expired leaving the store (hence `click_count` and `last_accessed`)
unchanged, on every such call; otherwise it returns the target URL and the
stored row gets `click_count + 1` and `last_accessed = now`. -/
theorem c5_redirect_resolution (db : DB) (code : String) (now : Int) :
    (findLink db code = none →
      redirect_to_url db code now = (.error .notFound, db))
    ∧ (∀ l e, findLink db code = some l → l.expires_at = some e → e < now →
      redirect_to_url db code now = (.error .expired, db)
      ∧ redirect_to_url (redirect_to_url db code now).2 code now =
          (.error .expired, db))
    ∧ (∀ l, findLink db code = some l →
      (l.expires_at = none ∨ ∃ e, l.expires_at = some e ∧ now ≤ e) →
      (redirect_to_url db code now).1 = .ok l.original_url
      ∧ findLink (redirect_to_url db code now).2 code =
          some { l with click_count := l.click_count + 1,
                        last_accessed := some now }) := by
  refine ⟨?_, ?_, ?_⟩
  · intro h
    simp [redirect_to_url, h]
  · intro l e hl he hlt
    have hexp : linkExpired l now = true := by
      simp [linkExpired, he]
      omega
    have h1 : redirect_to_url db code now = (.error .expired, db) := by
      simp [redirect_to_url, hl, hexp]
    exact ⟨h1, by rw [h1]; exact h1⟩
  · intro l hl hne
    have hexp : linkExpired l now = false := by
      rcases hne with h | ⟨e, he, hle⟩
      · simp [linkExpired, h]
      · simp [linkExpired, he]
        omega
    have hred : redirect_to_url db code now =
        (.ok l.original_url, bumpClick db code now) := by
      simp [redirect_to_url, hl, hexp]
    refine ⟨by rw [hred], ?_⟩
    rw [hred]
    have hl' : db.links.find? (fun x => x.short_code == code) = some l := hl
    have hp := List.find?_some hl'
    have := find?_modifyFirst (fun x => x.short_code == code)
      (fun x =>
        { x with click_count := x.click_count + 1, last_accessed := some now })
      db.links l hl' (by simpa using hp)
    simpa [findLink, bumpClick] using this

/-- Witness for C5 at a concrete expired link and a concrete live link. -/
theorem c5_witness :
    redirect_to_url ⟨[⟨"abc123", "https://a.com", 0, 0, none, some 10, none⟩],
        []⟩ "abc123" 11 =
      (.error .expired,
        ⟨[⟨"abc123", "https://a.com", 0, 0, none, some 10, none⟩], []⟩)
    ∧ (redirect_to_url ⟨[⟨"abc123", "https://a.com", 0, 0, none, some 10, none⟩],
        []⟩ "abc123" 9).1 = .ok "https://a.com" :=
  ⟨((c5_redirect_resolution _ "abc123" 11).2.1
      ⟨"abc123", "https://a.com", 0, 0, none, some 10, none⟩ 10 (by decide)
      (by decide) (by decide)).1,
    ((c5_redirect_resolution _ "abc123" 9).2.2
      ⟨"abc123", "https://a.com", 0, 0, none, some 10, none⟩ (by decide)
      (Or.inr ⟨10, rfl, by decide⟩)).1⟩

/-- C1 counterexample: in the code an `Identified` caller is rejected with
`Forbidden` even when the record has no owner (`created_by_key_id` is
`None`, so `created_by_key_id != key_id` holds), for all three record-scoped
operations — refuting the claim's "or the record has no owner" clause. -/
theorem c1_counterexample :
    get_short_link_info
        ⟨[⟨"abc123", "https://a.com", 0, 0, none, none, none⟩], []⟩
        (some 1) "abc123" = .error .forbidden
    ∧ get_short_link_stats
        ⟨[⟨"abc123", "https://a.com", 0, 0, none, none, none⟩], []⟩
        (some 1) "abc123" = .error .forbidden
    ∧ (delete_short_link
        ⟨[⟨"abc123", "https://a.com", 0, 0, none, none, none⟩], []⟩
        (some 1) "abc123").1 = .error .forbidden := by
  refine ⟨by decide, by decide, by decide⟩

/-- C1 (amended): on an existing record, an Anonymous caller (no
authentication configured) succeeds for info, stats and delete against any
record; an Identified caller succeeds exactly when the record's owner key id
equals the caller's key id, and otherwise — including when the record has no
owner — the operation fails Forbidden. -/
theorem c1_record_scoped_authorization (db : DB) (code : String)
    (l : ShortLink) (k : Nat) (h : findLink db code = some l) :
    get_short_link_info db none code = .ok (responseOf l)
    ∧ get_short_link_stats db none code = .ok (statsOf l)
    ∧ (delete_short_link db none code).1 = .ok ()
    ∧ get_short_link_info db (some k) code =
        (if l.created_by_key_id = some k then .ok (responseOf l)
         else .error .forbidden)
    ∧ get_short_link_stats db (some k) code =
        (if l.created_by_key_id = some k then .ok (statsOf l)
         else .error .forbidden)
    ∧ (delete_short_link db (some k) code).1 =
        (if l.created_by_key_id = some k then .ok ()
         else .error .forbidden) := by
  refine ⟨?_, ?_, ?_, ?_, ?_, ?_⟩
  · simp [get_short_link_info, h]
  · simp [get_short_link_stats, h]
  · simp [delete_short_link, h]
  · by_cases hc : l.created_by_key_id = some k <;>
      simp [get_short_link_info, h, hc]
  · by_cases hc : l.created_by_key_id = some k <;>
      simp [get_short_link_stats, h, hc]
  · by_cases hc : l.created_by_key_id = some k <;>
      simp [delete_short_link, h, hc]

/-- Witness for C1 (amended): owning caller succeeds, anonymous caller
succeeds, foreign identified caller is rejected. -/
theorem c1_witness :
    get_short_link_info
        ⟨[⟨"abc123", "https://a.com", 0, 0, none, none, some 1⟩], []⟩
        (some 1) "abc123" =
      .ok (responseOf ⟨"abc123", "https://a.com", 0, 0, none, none, some 1⟩)
    ∧ (delete_short_link
        ⟨[⟨"abc123", "https://a.com", 0, 0, none, none, some 1⟩], []⟩
        (some 2) "abc123").1 = .error .forbidden
    ∧ get_short_link_stats
        ⟨[⟨"abc123", "https://a.com", 0, 0, none, none, some 1⟩], []⟩
        none "abc123" =
      .ok (statsOf ⟨"abc123", "https://a.com", 0, 0, none, none, some 1⟩) := by
  refine ⟨?_, ?_, ?_⟩
  · have h := (c1_record_scoped_authorization
      ⟨[⟨"abc123", "https://a.com", 0, 0, none, none, some 1⟩], []⟩ "abc123"
      ⟨"abc123", "https://a.com", 0, 0, none, none, some 1⟩ 1
      (by decide)).2.2.2.1
    simpa using h
  · have h := (c1_record_scoped_authorization
      ⟨[⟨"abc123", "https://a.com", 0, 0, none, none, some 1⟩], []⟩ "abc123"
      ⟨"abc123", "https://a.com", 0, 0, none, none, some 1⟩ 2
      (by decide)).2.2.2.2.2
    simpa using h
  · exact (c1_record_scoped_authorization
      ⟨[⟨"abc123", "https://a.com", 0, 0, none, none, some 1⟩], []⟩ "abc123"
      ⟨"abc123", "https://a.com", 0, 0, none, none, some 1⟩ 7
      (by decide)).2.1

/-- C7: deleting an existing link as an identified non-owner fails
Forbidden and leaves the store unchanged (the link stays present); deleting
as the owning caller, or as an anonymous caller when no authentication is
configured, succeeds, and afterwards lookup, info and resolve of that code
all give NotFound.  The hypothesis `hnd` is the store's uniqueness
constraint on `short_code` (src/database.py line 54). -/
theorem c7_delete_then_not_found (db : DB) (code : String) (l : ShortLink)
    (now : Int) (hnd : (db.links.map (fun x => x.short_code)).Nodup)
    (h : findLink db code = some l) :
    (∀ k, l.created_by_key_id ≠ some k →
      delete_short_link db (some k) code = (.error .forbidden, db))
    ∧ (∀ k, l.created_by_key_id = some k →
      (delete_short_link db (some k) code).1 = .ok ()
      ∧ findLink (delete_short_link db (some k) code).2 code = none
      ∧ get_short_link_info (delete_short_link db (some k) code).2 none code =
          .error .notFound
      ∧ (redirect_to_url (delete_short_link db (some k) code).2 code now).1 =
          .error .notFound)
    ∧ ((delete_short_link db none code).1 = .ok ()
      ∧ findLink (delete_short_link db none code).2 code = none
      ∧ get_short_link_info (delete_short_link db none code).2 none code =
          .error .notFound
      ∧ (redirect_to_url (delete_short_link db none code).2 code now).1 =
          .error .notFound) := by
  have herase0 :=
    find?_eraseP_of_nodup (fun x : ShortLink => x.short_code) db.links code hnd
  have herase : findLink
      { db with links := db.links.eraseP (fun x => x.short_code == code) }
      code = none := herase0
  refine ⟨?_, ?_, ?_⟩
  · intro k hk
    simp [delete_short_link, h, hk]
  · intro k hk
    have hdel : delete_short_link db (some k) code =
        (.ok (),
          { db with
            links := db.links.eraseP (fun x => x.short_code == code) }) := by
      simp [delete_short_link, h, hk]
    rw [hdel]
    exact ⟨rfl, herase, by simp [get_short_link_info, herase],
      by simp [redirect_to_url, herase]⟩
  · have hdel : delete_short_link db none code =
        (.ok (),
          { db with
            links := db.links.eraseP (fun x => x.short_code == code) }) := by
      simp [delete_short_link, h]
    rw [hdel]
    exact ⟨rfl, herase, by simp [get_short_link_info, herase],
      by simp [redirect_to_url, herase]⟩

/-- Witness for C7 at a concrete store. -/
theorem c7_witness :
    delete_short_link
        ⟨[⟨"abc123", "https://a.com", 0, 0, none, none, some 1⟩], []⟩
        (some 2) "abc123" =
      (.error .forbidden,
        ⟨[⟨"abc123", "https://a.com", 0, 0, none, none, some 1⟩], []⟩)
    ∧ (delete_short_link
        ⟨[⟨"abc123", "https://a.com", 0, 0, none, none, some 1⟩], []⟩
        (some 1) "abc123").1 = .ok ()
    ∧ findLink (delete_short_link
        ⟨[⟨"abc123", "https://a.com", 0, 0, none, none, some 1⟩], []⟩
        (some 1) "abc123").2 "abc123" = none := by
  refine ⟨?_, ?_, ?_⟩
  · exact (c7_delete_then_not_found
      ⟨[⟨"abc123", "https://a.com", 0, 0, none, none, some 1⟩], []⟩ "abc123"
      ⟨"abc123", "https://a.com", 0, 0, none, none, some 1⟩ 0
      (by decide) (by decide)).1 2 (by decide)
  · exact ((c7_delete_then_not_found
      ⟨[⟨"abc123", "https://a.com", 0, 0, none, none, some 1⟩], []⟩ "abc123"
      ⟨"abc123", "https://a.com", 0, 0, none, none, some 1⟩ 0
      (by decide) (by decide)).2.1 1 rfl).1
  · exact ((c7_delete_then_not_found
      ⟨[⟨"abc123", "https://a.com", 0, 0, none, none, some 1⟩], []⟩ "abc123"
      ⟨"abc123", "https://a.com", 0, 0, none, none, some 1⟩ 0
      (by decide) (by decide)).2.1 1 rfl).2.1

/-- C6 counterexample: the 6-character custom code `"héllo1"` is not
alphanumeric in the spec's 62-symbol sense (`'é'` is none of upper, lower,
digit), yet creation succeeds — the program's format check is Python's
Unicode-aware `str.isalnum`, which accepts `'é'` — refuting "if the code
is not alphanumeric ... creation fails InvalidFormat". -/
theorem c6_counterexample :
    ("héllo1".length = 6 ∧ "héllo1".data.all specAlnumChar = false)
    ∧ create_short_link ⟨[], []⟩ none
        ⟨"https://b.com", some "héllo1", none, none⟩ 0 "zzz111" =
      .ok (responseOf ⟨"héllo1", "https://b.com", 0, 0, none, none, none⟩,
        ⟨[⟨"héllo1", "https://b.com", 0, 0, none, none, none⟩], []⟩) := by
  refine ⟨⟨by decide, by decide⟩, by decide⟩

/-- C6 (amended): the format check on a (non-empty) custom code is Python's
Unicode-aware `str.isalnum`, not the spec's 62-symbol alphabet.  For every
custom code drawn from the Latin-1 block (where the embedding encodes
`str.isalnum` exactly): creation fails with a format error (HTTP 400) when
the length is outside 6–10 or the code is not `isalnum`-alphanumeric; a
well-formed code that is already present fails Conflict (409); a well-formed
free code is accepted as the link's code, and creating with the same custom
code a second time yields Conflict. -/
theorem c6_custom_code_rules (db : DB) (k : Option Nat) (url : String)
    (h m : Option Int) (now : Int) (fresh : String) (c : String)
    (hc : c ≠ "") (_hl1 : c.data.all (fun ch => ch.toNat < 256) = true) :
    (¬(6 ≤ c.length ∧ c.length ≤ 10) →
      create_short_link db k ⟨url, some c, h, m⟩ now fresh =
        .error .codeLengthOutOfRange)
    ∧ (6 ≤ c.length → c.length ≤ 10 → pyIsAlnum c = false →
      create_short_link db k ⟨url, some c, h, m⟩ now fresh =
        .error .codeNotAlnum)
    ∧ (6 ≤ c.length → c.length ≤ 10 → pyIsAlnum c = true →
      (findLink db c).isSome = true →
      create_short_link db k ⟨url, some c, h, m⟩ now fresh = .error .conflict)
    ∧ (6 ≤ c.length → c.length ≤ 10 → pyIsAlnum c = true →
      findLink db c = none →
      ∃ r db2,
        create_short_link db k ⟨url, some c, h, m⟩ now fresh = .ok (r, db2)
        ∧ r.short_code = c
        ∧ create_short_link db2 k ⟨url, some c, h, m⟩ now fresh =
            .error .conflict) := by
  refine ⟨?_, ?_, ?_, ?_⟩
  · intro hlen
    simp [create_short_link, validate_url_normalize_url, hc, hlen]
  · intro h6 h10 hal
    simp [create_short_link, validate_url_normalize_url, hc, h6, h10, hal]
  · intro h6 h10 hal hfound
    simp [create_short_link, validate_url_normalize_url, hc, h6, h10, hal,
      hfound]
  · intro h6 h10 hal hfree
    refine ⟨responseOf ⟨c, normalize_url url, now, 0, none,
      hoursExpiry h now, k⟩,
      { db with links := db.links ++
          [⟨c, normalize_url url, now, 0, none, hoursExpiry h now, k⟩] },
      ?_, rfl, ?_⟩
    · simp [create_short_link, validate_url_normalize_url, hc, h6, h10, hal,
        hfree]
    · have hfree' : db.links.find? (fun x => x.short_code == c) = none := hfree
      have hsecond : findLink
          { db with links := db.links ++
            [⟨c, normalize_url url, now, 0, none, hoursExpiry h now, k⟩] }
          c =
          some ⟨c, normalize_url url, now, 0, none, hoursExpiry h now, k⟩ :=
        find?_append_singleton _ db.links _ hfree' (by simp)
      simp [create_short_link, validate_url_normalize_url, hc, h6, h10, hal,
        hsecond]

/-- Witness for C6: length-5, length-11, non-alphanumeric and accepted
examples from the spec, plus the duplicate-creation Conflict. -/
theorem c6_witness :
    create_short_link ⟨[], []⟩ none ⟨"https://b.com", some "abc12", none, none⟩
        0 "zzz111" = .error .codeLengthOutOfRange
    ∧ create_short_link ⟨[], []⟩ none
        ⟨"https://b.com", some "abcdefghij1", none, none⟩ 0 "zzz111" =
        .error .codeLengthOutOfRange
    ∧ create_short_link ⟨[], []⟩ none
        ⟨"https://b.com", some "abc-123", none, none⟩ 0 "zzz111" =
        .error .codeNotAlnum
    ∧ ∃ r db2,
        create_short_link ⟨[], []⟩ none
          ⟨"https://b.com", some "abc123", none, none⟩ 0 "zzz111" =
          .ok (r, db2)
        ∧ r.short_code = "abc123"
        ∧ create_short_link db2 none
            ⟨"https://b.com", some "abc123", none, none⟩ 0 "zzz111" =
            .error .conflict := by
  refine ⟨?_, ?_, ?_, ?_⟩
  · exact (c6_custom_code_rules ⟨[], []⟩ none "https://b.com" none none 0
      "zzz111" "abc12" (by decide) (by decide)).1 (by decide)
  · exact (c6_custom_code_rules ⟨[], []⟩ none "https://b.com" none none 0
      "zzz111" "abcdefghij1" (by decide) (by decide)).1 (by decide)
  · exact (c6_custom_code_rules ⟨[], []⟩ none "https://b.com" none none 0
      "zzz111" "abc-123" (by decide) (by decide)).2.1 (by decide) (by decide)
      (by decide)
  · exact (c6_custom_code_rules ⟨[], []⟩ none "https://b.com" none none 0
      "zzz111" "abc123" (by decide) (by decide)).2.2.2 (by decide) (by decide)
      (by decide) (by decide)

/-- C10: a supplied but non-positive `expires_in_hours` is silently treated
as no TTL: the request succeeds and the created link has no `expires_at`,
both in the single-create and in the batch handler. -/
theorem c10_nonpositive_ttl (db : DB) (k : Option Nat) (url : String)
    (hv : Int) (m : Option Int) (now : Int) (fresh : String)
    (supply : Nat → String) (hneg : hv ≤ 0) :
    (∃ r db2,
      create_short_link db k ⟨url, none, some hv, m⟩ now fresh = .ok (r, db2)
      ∧ r.expires_at = none)
    ∧ (∃ r db2,
      create_batch_short_links db k ⟨[url], some hv, m⟩ now supply =
        (.ok [r], db2)
      ∧ r.expires_at = none) := by
  have hexp : hoursExpiry (some hv) now = none := by
    simp [hoursExpiry]
    omega
  constructor
  · refine ⟨responseOf ⟨fresh, normalize_url url, now, 0, none, none, k⟩,
      { db with links := db.links ++
          [⟨fresh, normalize_url url, now, 0, none, none, k⟩] }, ?_, rfl⟩
    simp [create_short_link, validate_url_normalize_url, hexp]
  · refine ⟨responseOf
      ⟨supply 0, normalize_url (pyStrip url), now, 0, none, none, k⟩,
      { db with links := db.links ++
          [⟨supply 0, normalize_url (pyStrip url), now, 0, none, none, k⟩] },
      ?_, rfl⟩
    simp [create_batch_short_links, batchLoop, validate_url_normalize_url,
      hexp]

/-- Witness for C10 with `expires_in_hours = -3` and `= 0`. -/
theorem c10_witness :
    (∃ r db2,
      create_short_link ⟨[], []⟩ none
        ⟨"https://a.com", none, some (-3), none⟩ 0 "abc123" = .ok (r, db2)
      ∧ r.expires_at = none)
    ∧ (∃ r db2,
      create_batch_short_links ⟨[], []⟩ none ⟨["https://a.com"], some 0, none⟩
        0 (fun _ => "abc123") = (.ok [r], db2)
      ∧ r.expires_at = none) :=
  ⟨(c10_nonpositive_ttl ⟨[], []⟩ none "https://a.com" (-3) none 0 "abc123"
      (fun _ => "abc123") (by decide)).1,
    (c10_nonpositive_ttl ⟨[], []⟩ none "https://a.com" 0 none 0 "abc123"
      (fun _ => "abc123") (by decide)).2⟩

/-- Extracts the created link's `expires_at` from a create result. -/
def createdExpiresAt (r : Except CreateError (ShortLinkResponse × DB)) :
    Option Int :=
  match r with
  | .ok (resp, _) => resp.expires_at
  | .error _ => none

/-- C2 (code behavior): `create_short_link` never consults
`expires_in_minutes` — two requests differing only in that field produce
identical results — and on the concrete failing input
(`expires_in_hours = 1`, `expires_in_minutes = 30`, `now = 0`) the created
link's `expires_at` is `3600` (now + 1 hour), not `1800` (now + 30
minutes) as the minutes-take-precedence rule would require. -/
theorem c2_minutes_never_consulted :
    (∀ (db : DB) (k : Option Nat) (url : String) (cc : Option String)
      (h mm mm' : Option Int) (now : Int) (fresh : String),
      create_short_link db k ⟨url, cc, h, mm⟩ now fresh =
      create_short_link db k ⟨url, cc, h, mm'⟩ now fresh)
    ∧ createdExpiresAt (create_short_link ⟨[], []⟩ none
        ⟨"https://a.com", none, some 1, some 30⟩ 0 "abc123") = some 3600
    ∧ createdExpiresAt (create_short_link ⟨[], []⟩ none
        ⟨"https://a.com", none, some 1, some 30⟩ 0 "abc123") ≠ some 1800 := by
  refine ⟨fun db k url cc h mm mm' now fresh => rfl, by decide, by decide⟩

/-- C3 counterexample: with zero active credentials provisioned, a request
that does supply a credential string is rejected with `InvalidCredential`
(HTTP 403) instead of being authenticated as Anonymous. -/
theorem c3_counterexample :
    hasActiveKeys ⟨[], []⟩ = false
    ∧ (verify_api_key ⟨[], []⟩ emptyThrottle "203.0.113.7" (some "anykey")
        0).1 = .invalidKey
    ∧ (verify_api_key ⟨[], []⟩ emptyThrottle "203.0.113.7" (some "anykey")
        0).1 ≠ .allowed none := by
  refine ⟨rfl, by decide, by decide⟩

/-- C3 (amended): for a non-banned address — when zero active credentials
are provisioned, a request supplying no credential is authenticated
Anonymous and not rejected, but a request supplying a (non-empty)
credential string is still looked up and rejected with `InvalidCredential`
(no active credential can match it); when at least one active credential
exists and no credential is supplied, the request is rejected with
`MissingCredential`. -/
theorem c3_auth_modes (db : DB) (st : ThrottleState) (ip : String) (now : Int)
    (hban : (is_ip_banned st ip now).1 = false) :
    (hasActiveKeys db = false →
      (verify_api_key db st ip none now).1 = .allowed none)
    ∧ (hasActiveKeys db = true →
      (verify_api_key db st ip none now).1 = .missingKey)
    ∧ (∀ k, k ≠ "" → hasActiveKeys db = false →
      (verify_api_key db st ip (some k) now).1 = .invalidKey) := by
  rcases hib : is_ip_banned st ip now with ⟨b, st1⟩
  rw [hib] at hban
  simp only at hban
  subst hban
  refine ⟨?_, ?_, ?_⟩
  · intro hkeys
    simp [verify_api_key, hib, hkeys]
  · intro hkeys
    simp [verify_api_key, hib, hkeys]
  · intro k hk hkeys
    simp [verify_api_key, hib, hk, findActiveKey_eq_none_of_noActive db k hkeys]

/-- Witness for C3 (amended): empty credential store and a store with one
active credential, at a fresh (non-banned) throttle state. -/
theorem c3_witness :
    (verify_api_key ⟨[], []⟩ emptyThrottle "203.0.113.7" none 0).1 =
      .allowed none
    ∧ (verify_api_key ⟨[], [⟨1, "sk-live", "n", 0, none, none, 0, true⟩]⟩
        emptyThrottle "203.0.113.7" none 0).1 = .missingKey :=
  ⟨(c3_auth_modes ⟨[], []⟩ emptyThrottle "203.0.113.7" 0 (by decide)).1 rfl,
    (c3_auth_modes ⟨[], [⟨1, "sk-live", "n", 0, none, none, 0, true⟩]⟩
      emptyThrottle "203.0.113.7" 0 (by decide)).2.1 rfl⟩

/-- Folding `record_auth_failure` over a list of failure instants. -/
def recordFailures (st : ThrottleState) (ip : String) (ts : List Int) :
    ThrottleState :=
  ts.foldl (fun s t => record_auth_failure s ip t) st

theorem record_auth_failure_apply (st : ThrottleState) (ip : String)
    (now : Int) :
    (record_auth_failure st ip now) ip =
      if ((st ip).attempts.filter
            (fun t => now - t < FAILURE_WINDOW) ++ [now]).length ≥
          MAX_FAILURES then
        ⟨(st ip).attempts.filter (fun t => now - t < FAILURE_WINDOW) ++ [now],
          some (now + BAN_DURATION)⟩
      else
        ⟨(st ip).attempts.filter (fun t => now - t < FAILURE_WINDOW) ++ [now],
          (st ip).ban_until⟩ := by
  unfold record_auth_failure
  split <;> simp [setEntry]

/-- C4: starting from a clean throttle entry, five authentication failures
within the 300-second window set a ban of 900 seconds from the fifth
failure; while the ban is in force every request from that address — with
any supplied credential, against any credential store — is rejected
`RateLimited` (with the remaining seconds) before authentication is
consulted; and once the ban instant has passed, the next `is_ip_banned`
check reports not banned and clears both the ban and the accumulated
attempt history. -/
theorem c4_ban_lifecycle (st : ThrottleState) (ip : String)
    (t1 t2 t3 t4 t5 tb ta : Int) (db : DB) (provided : Option String)
    (h0 : st ip = ⟨[], none⟩)
    (h12 : t1 ≤ t2) (h23 : t2 ≤ t3) (h34 : t3 ≤ t4) (h45 : t4 ≤ t5)
    (hw : t5 - t1 < 300) :
    ((recordFailures st ip [t1, t2, t3, t4, t5]) ip).ban_until =
      some (t5 + 900)
    ∧ (t5 ≤ tb → tb < t5 + 900 →
      (verify_api_key db (recordFailures st ip [t1, t2, t3, t4, t5]) ip
        provided tb).1 = .rateLimited (t5 + 900 - tb))
    ∧ (t5 + 900 ≤ ta →
      (is_ip_banned (recordFailures st ip [t1, t2, t3, t4, t5]) ip ta).1 =
        false
      ∧ ((is_ip_banned (recordFailures st ip [t1, t2, t3, t4, t5]) ip ta).2
          ip) = ⟨[], none⟩) := by
  have c21 : t2 - t1 < 300 := by omega
  have c31 : t3 - t1 < 300 := by omega
  have c32 : t3 - t2 < 300 := by omega
  have c41 : t4 - t1 < 300 := by omega
  have c42 : t4 - t2 < 300 := by omega
  have c43 : t4 - t3 < 300 := by omega
  have c51 : t5 - t1 < 300 := by omega
  have c52 : t5 - t2 < 300 := by omega
  have c53 : t5 - t3 < 300 := by omega
  have c54 : t5 - t4 < 300 := by omega
  have e1 : (record_auth_failure st ip t1) ip = ⟨[t1], none⟩ := by
    rw [record_auth_failure_apply, h0]
    simp [MAX_FAILURES]
  have e2 : (record_auth_failure (record_auth_failure st ip t1) ip t2) ip =
      ⟨[t1, t2], none⟩ := by
    rw [record_auth_failure_apply, e1]
    simp [MAX_FAILURES, FAILURE_WINDOW, List.filter, c21]
  have e3 : (record_auth_failure (record_auth_failure
      (record_auth_failure st ip t1) ip t2) ip t3) ip =
      ⟨[t1, t2, t3], none⟩ := by
    rw [record_auth_failure_apply, e2]
    simp [MAX_FAILURES, FAILURE_WINDOW, List.filter, c31, c32]
  have e4 : (record_auth_failure (record_auth_failure (record_auth_failure
      (record_auth_failure st ip t1) ip t2) ip t3) ip t4) ip =
      ⟨[t1, t2, t3, t4], none⟩ := by
    rw [record_auth_failure_apply, e3]
    simp [MAX_FAILURES, FAILURE_WINDOW, List.filter, c41, c42, c43]
  have hfold : recordFailures st ip [t1, t2, t3, t4, t5] =
      record_auth_failure (record_auth_failure (record_auth_failure
        (record_auth_failure (record_auth_failure st ip t1) ip t2) ip t3)
        ip t4) ip t5 := by
    simp only [recordFailures, List.foldl_cons, List.foldl_nil]
  have e5 : (recordFailures st ip [t1, t2, t3, t4, t5]) ip =
      ⟨[t1, t2, t3, t4, t5], some (t5 + BAN_DURATION)⟩ := by
    rw [hfold, record_auth_failure_apply, e4]
    simp [MAX_FAILURES, FAILURE_WINDOW, List.filter, c51, c52, c53, c54]
  refine ⟨by rw [e5]; rfl, ?_, ?_⟩
  · intro hb1 hb2
    have hbanned : is_ip_banned (recordFailures st ip [t1, t2, t3, t4, t5])
        ip tb = (true, recordFailures st ip [t1, t2, t3, t4, t5]) := by
      simp [is_ip_banned, e5, BAN_DURATION]
      omega
    have hrem : get_remaining_ban_time
        (recordFailures st ip [t1, t2, t3, t4, t5]) ip tb =
        t5 + 900 - tb := by
      simp [get_remaining_ban_time, e5, BAN_DURATION]
      omega
    simp [verify_api_key, hbanned, hrem]
  · intro ha
    have hnot : ¬ ta < t5 + BAN_DURATION := by
      simp [BAN_DURATION]
      omega
    constructor
    · simp [is_ip_banned, e5, hnot]
    · simp [is_ip_banned, e5, hnot, setEntry]

/-- Witness for C4: five immediate failures from one address, then a
request carrying a valid credential at second 10 is rate-limited with 890
seconds remaining; at second 900 the ban is gone and the history empty. -/
theorem c4_witness :
    (verify_api_key ⟨[], [⟨1, "sk-live", "n", 0, none, none, 0, true⟩]⟩
      (recordFailures emptyThrottle "198.51.100.9" [0, 1, 2, 3, 4])
      "198.51.100.9" (some "sk-live") 10).1 = .rateLimited 894
    ∧ ((is_ip_banned
        (recordFailures emptyThrottle "198.51.100.9" [0, 1, 2, 3, 4])
        "198.51.100.9" 904).2 "198.51.100.9") = ⟨[], none⟩ :=
  ⟨(c4_ban_lifecycle emptyThrottle "198.51.100.9" 0 1 2 3 4 10 904
      ⟨[], [⟨1, "sk-live", "n", 0, none, none, 0, true⟩]⟩ (some "sk-live")
      rfl (by decide) (by decide) (by decide) (by decide) (by decide)).2.1
      (by decide) (by decide),
    ((c4_ban_lifecycle emptyThrottle "198.51.100.9" 0 1 2 3 4 10 904
      ⟨[], [⟨1, "sk-live", "n", 0, none, none, 0, true⟩]⟩ (some "sk-live")
      rfl (by decide) (by decide) (by decide) (by decide) (by decide)).2.2
      (by decide)).2⟩

/-- Whether a batch item passes the per-item URL check of
`create_batch_short_links`. -/
def batchItemOk (u : String) : Bool :=
  validate_url (normalize_url (pyStrip u))

theorem batchLoop_counts (k : Option Nat) (h : Option Int) (now : Int)
    (supply : Nat → String) :
    ∀ (urls : List String) (idx : Nat) (db : DB),
      (batchLoop k h now supply urls idx db).1.length =
        (urls.filter (fun u => batchItemOk u)).length
      ∧ (batchLoop k h now supply urls idx db).2.1.length =
        (urls.filter (fun u => !(batchItemOk u))).length := by
  intro urls
  induction urls with
  | nil => intro idx db; simp [batchLoop]
  | cons url rest ih =>
    intro idx db
    by_cases hv : batchItemOk url = true
    · have hv' : validate_url (normalize_url (pyStrip url)) = true := hv
      constructor
      · simp [batchLoop, hv', List.filter_cons, hv, (ih (idx + 1) _).1]
      · simp [batchLoop, hv', List.filter_cons, hv, (ih (idx + 1) _).2]
    · have hv' : validate_url (normalize_url (pyStrip url)) = false := by
        simpa using hv
      constructor
      · simp [batchLoop, hv', List.filter_cons, hv, (ih (idx + 1) db).1]
      · simp [batchLoop, hv', List.filter_cons, hv, (ih (idx + 1) db).2]

/-- C9: batch creation processes the URLs independently — every item that
passes the per-item check contributes exactly one created-link record and
every failing item contributes exactly one error message, regardless of the
failures around it (so a failing item does not abort the remaining items) —
and the request as a whole fails only when zero items succeed: an aggregate
error implies the success list is empty, and any success makes the endpoint
return the success list. -/
theorem c9_batch_isolation (db : DB) (k : Option Nat) (urls : List String)
    (h m : Option Int) (now : Int) (supply : Nat → String) :
    (batchLoop k h now supply urls 0 db).1.length =
      (urls.filter (fun u => batchItemOk u)).length
    ∧ (batchLoop k h now supply urls 0 db).2.1.length =
      (urls.filter (fun u => !(batchItemOk u))).length
    ∧ (∀ e, (create_batch_short_links db k ⟨urls, h, m⟩ now supply).1 =
        .error e → (batchLoop k h now supply urls 0 db).1 = [])
    ∧ ((batchLoop k h now supply urls 0 db).1 ≠ [] →
      (create_batch_short_links db k ⟨urls, h, m⟩ now supply).1 =
        .ok (batchLoop k h now supply urls 0 db).1) := by
  refine ⟨(batchLoop_counts k h now supply urls 0 db).1,
    (batchLoop_counts k h now supply urls 0 db).2, ?_, ?_⟩
  · intro e he
    by_cases hcond : (batchLoop k h now supply urls 0 db).2.1 ≠ [] ∧
        (batchLoop k h now supply urls 0 db).1 = []
    · exact hcond.2
    · rw [create_batch_short_links] at he
      rw [if_neg hcond] at he
      exact absurd he (by simp)
  · intro hne
    by_cases hcond : (batchLoop k h now supply urls 0 db).2.1 ≠ [] ∧
        (batchLoop k h now supply urls 0 db).1 = []
    · exact absurd hcond.2 hne
    · rw [create_batch_short_links, if_neg hcond]

/-- Witness for C9: a two-URL batch produces two records and does not fail. -/
theorem c9_witness :
    (batchLoop none none 0 (fun i => toString i)
      ["https://a.com", "https://b.com"] 0 ⟨[], []⟩).1.length = 2
    ∧ (create_batch_short_links ⟨[], []⟩ none
        ⟨["https://a.com", "https://b.com"], none, none⟩ 0
        (fun i => toString i)).1 =
      .ok (batchLoop none none 0 (fun i => toString i)
        ["https://a.com", "https://b.com"] 0 ⟨[], []⟩).1 :=
  ⟨by
    have hc := (c9_batch_isolation ⟨[], []⟩ none
      ["https://a.com", "https://b.com"] none none 0 (fun i => toString i)).1
    rw [hc]
    decide,
    (c9_batch_isolation ⟨[], []⟩ none ["https://a.com", "https://b.com"]
      none none 0 (fun i => toString i)).2.2.2 (by decide)⟩

end Shortlinks
